import Mathlib

/-!
Shallow embedding of `src/Timer.py` (class `Timer`, class `TimerError`).

Modelling conventions:
* Python exceptions are values of `PyError`; a method returns its post-state
  together with `Except PyError result`, because a raised Python exception
  does not roll back object state.
* `time.perf_counter()` readings (floats) are modelled as rationals.
* The class-level dict `Timer.timers` (shared by all instances, insertion
  ordered) is the `Registry`, an insertion-ordered association list.
* Dynamic-semantics errors of the source are embedded as the exception the
  CPython interpreter raises at that statement; each such place carries a
  comment quoting the offending line.
-/

/-- Python exceptions that the embedded code can raise.  `timerError` is the
class `TimerError` of the source (carrying its message); the others are
built-in exceptions raised by the dynamic semantics of the buggy lines. -/
inductive PyError where
  | timerError (msg : String)
  | typeError (msg : String)
  | unboundLocalError (var : String)
  | attributeError (attr : String)
  | keyError (key : String)
deriving DecidableEq, Repr

/-- The shared class attribute `Timer.timers : dict`, an insertion-ordered
mapping from timer name to accumulated duration. -/
abbrev Registry := List (String × ℚ)

/-- `dict.setdefault(k, v)`: if `k` is present the dict is unchanged,
otherwise `(k, v)` is appended (insertion order). -/
def Registry.setdefault (reg : Registry) (k : String) (v : ℚ) : Registry :=
  if (reg.lookup k).isSome then reg else reg ++ [(k, v)]

/-- Instance state of one `Timer` object.  Field names drop the leading
underscore of the source (`_start_time`, `_name`, `_text`, `_logger`);
the logger is kept only as presence or absence since the source never
reaches the line that would call it. -/
structure Timer where
  start_time : Option ℚ
  name : Option String
  text : String
  hasLogger : Bool
deriving DecidableEq, Repr

/-- The default `text` argument of `Timer.__init__`:
`"Task took: \x7b:0.6f\x7d seconds."`. -/
def defaultText : String := "Task took: \x7b:0.6f\x7d seconds."

/-- Message of the `TimerError` raised by `Timer.start` when running
(source line: `raise TimerError(f"Timer is running. Use .stop() to stop it")`). -/
def runningMsg : String := "Timer is running. Use .stop() to stop it"

/-- Message of the `TimerError` raised by `Timer.stop` when idle
(source line: `raise TimerError(f"Timer is not running. Use .start() to start it.")`). -/
def notRunningMsg : String := "Timer is not running. Use .start() to start it."

/-- Message of the `TypeError` raised by
`_elapsed_time = time.perf_counter - self._start_time`: `time.perf_counter`
is the function object (the call parentheses are missing), and subtracting
a float from a function raises `TypeError`. -/
def perfCounterTypeErrorMsg : String :=
  "unsupported operand type(s) for -: builtin_function_or_method and float"

/-- Message of the `TypeError` raised by `_report += self.stop()` when a
non-string is concatenated to a string. -/
def strConcatTypeErrorMsg : String := "can only concatenate str to str"

/-- `Timer.__init__(self, name, text, logger)`.  Sets the four instance
attributes and, when `name` is truthy (present and non-empty), runs
`self.timers.setdefault(name, 0)` on the shared registry.  Returns the
updated registry and the fresh instance. -/
def Timer.init (reg : Registry) (name : Option String) (text : String)
    (hasLogger : Bool) : Registry × Timer :=
  (match name with
   | some n => if n = "" then reg else reg.setdefault n 0
   | none => reg,
   { start_time := none, name := name, text := text, hasLogger := hasLogger })

/-- `Timer.start(self)`: raises `TimerError` when `_start_time` is already
set, otherwise stores `time.perf_counter()` (the parameter `now`) in
`_start_time`. -/
def Timer.start (t : Timer) (now : ℚ) : Timer × Except PyError Unit :=
  match t.start_time with
  | some _ => (t, Except.error (PyError.timerError runningMsg))
  | none => ({ t with start_time := some now }, Except.ok ())

/-- `Timer.stop(self)`: raises `TimerError` when `_start_time` is `None`.
Otherwise the next statement is
`_elapsed_time = time.perf_counter - self._start_time`, which raises
`TypeError` (the source omits the call parentheses, so the function object
itself is the left operand).  No later statement of the method runs: the
logger call, the registry accumulation
(`self.timers[self._name] += _elapsed_time`) and the `return` are dead
code, and the method contains no `self._start_time = None` reset at all. -/
def Timer.stop (reg : Registry) (t : Timer) :
    Registry × Timer × Except PyError ℚ :=
  match t.start_time with
  | none => (reg, t, Except.error (PyError.timerError notRunningMsg))
  | some _ => (reg, t, Except.error (PyError.typeError perfCounterTypeErrorMsg))

/-- `Timer.report_saved_timer(self, name)`.  Its body is
`try: _report += f"..." except KeyError: raise TimerError(...)` followed by
`return _report`.  The augmented assignment loads the local `_report`
before evaluating its right-hand side; `_report` was never assigned, so
`UnboundLocalError` is raised, and the `except KeyError` clause does not
catch it.  (Even with `_report` initialised, the right-hand side reads the
attributes `self.name` and `self.text`, which do not exist — the instance
attributes are `_name` and `_text` — and it indexes the registry by the
calling timer name rather than by the `name` argument.) -/
def Timer.report_saved_timer (t : Timer) (name : String) :
    Timer × Except PyError String :=
  (t, Except.error (PyError.unboundLocalError "_report"))

/-- One line of the all-timers report:
`for key, value in self.timers.items(): _report += f"{key}: {value}\n"`,
accumulated in the iteration (= insertion) order of the registry. -/
def reportAllLines : Registry → String
  | [] => ""
  | (k, v) :: rest => k ++ ": " ++ toString v ++ "\n" ++ reportAllLines rest

/-- `Timer.report(self, name)`.  Initialises `_report = ""`, then:
with `name` given, delegates to `report_saved_timer` (whose exception
propagates); with `name` absent and a truthy (non-empty) registry, renders
one line per entry; with `name` absent and an empty registry, runs
`_report += self.stop()` — `stop` raises before returning, and even a
returned value would be a float whose concatenation to `str` raises
`TypeError` (the `-> str` return hint of `stop` is wrong). -/
def Timer.report (reg : Registry) (t : Timer) (name : Option String) :
    Registry × Timer × Except PyError String :=
  match name with
  | some n =>
      let (t1, r) := t.report_saved_timer n
      (reg, t1, r)
  | none =>
      if reg.isEmpty then
        let (reg1, t1, r) := Timer.stop reg t
        match r with
        | Except.error e => (reg1, t1, Except.error e)
        | Except.ok _ => (reg1, t1, Except.error (PyError.typeError strConcatTypeErrorMsg))
      else
        (reg, t, Except.ok (reportAllLines reg))

/-- The context-manager protocol around a body: `__enter__` calls
`self.start()` (its exception propagates and the body never runs),
then the body produces `body : Except PyError α`, then `__exit__`
unconditionally calls `self.stop()`.  If `stop` raises, that exception
supersedes the outcome of the body (Python propagates the exception raised
inside `__exit__`); if `stop` returns, `__exit__` returns `None` (falsy),
so an exception of the body propagates and a normal result is returned. -/
def withTimer {α : Type} (reg : Registry) (t : Timer) (now : ℚ)
    (body : Except PyError α) : Registry × Timer × Except PyError α :=
  let (t1, r1) := t.start now
  match r1 with
  | Except.error e => (reg, t1, Except.error e)
  | Except.ok _ =>
      let (reg2, t2, r2) := Timer.stop reg t1
      match r2 with
      | Except.error e2 => (reg2, t2, Except.error e2)
      | Except.ok _ =>
          match body with
          | Except.error e => (reg2, t2, Except.error e)
          | Except.ok a => (reg2, t2, Except.ok a)

/-- `Timer.__call__(self, funcion)` returns `wrapper_timer`, which runs
`with self: return funcion(*args, **kwargs)`.  One invocation of the
wrapped callable on argument `x` is therefore the context-manager
behaviour around the single call `f x`. -/
def wrapper_timer {α β : Type} (reg : Registry) (t : Timer) (now : ℚ)
    (f : α → Except PyError β) (x : α) : Registry × Timer × Except PyError β :=
  withTimer reg t now (f x)

/-- One operation of a program driving the `Timer` class: constructing an
instance, or invoking `start` / `stop` / `report` on the instance with
index `i` (in construction order).  `start` carries the clock reading. -/
inductive Op where
  | construct (name : Option String) (text : String) (hasLogger : Bool)
  | start (i : ℕ) (now : ℚ)
  | stop (i : ℕ)
  | report (i : ℕ) (name : Option String)

/-- Process-wide state: the shared registry (class attribute) plus every
constructed instance, in construction order. -/
structure PyState where
  registry : Registry
  insts : List Timer

/-- Initial process state: `timers = dict()` at class creation, no
instances yet. -/
def initState : PyState := { registry := [], insts := [] }

/-- Small-step semantics of one operation, built from the embedded methods.
Operations on a non-existent instance index are no-ops; exceptions leave
the post-state produced by the method. -/
def PyState.step (s : PyState) : Op → PyState
  | Op.construct name text lg =>
      let (reg1, inst) := Timer.init s.registry name text lg
      { registry := reg1, insts := s.insts ++ [inst] }
  | Op.start i now =>
      match s.insts[i]? with
      | none => s
      | some t =>
          let (t1, _) := t.start now
          { registry := s.registry, insts := s.insts.set i t1 }
  | Op.stop i =>
      match s.insts[i]? with
      | none => s
      | some t =>
          let (reg1, t1, _) := Timer.stop s.registry t
          { registry := reg1, insts := s.insts.set i t1 }
  | Op.report i name =>
      match s.insts[i]? with
      | none => s
      | some t =>
          let (reg1, t1, _) := Timer.report s.registry t name
          { registry := reg1, insts := s.insts.set i t1 }

/-- Run a whole sequence of operations from the initial process state. -/
def runOps (ops : List Op) : PyState := ops.foldl PyState.step initState

/-! Helper lemmas (shared across the claim theorems below). -/

/-- `Timer.stop` leaves the registry untouched: both branches raise before
reaching `self.timers[self._name] += _elapsed_time`. -/
theorem Timer.stop_registry_eq (reg : Registry) (t : Timer) :
    (Timer.stop reg t).1 = reg := by
  cases h : t.start_time <;> simp [Timer.stop, h]

/-- `Timer.stop` leaves the instance untouched: it contains no
`self._start_time = None` reset and raises before any other assignment. -/
theorem Timer.stop_inst_eq (reg : Registry) (t : Timer) :
    (Timer.stop reg t).2.1 = t := by
  cases h : t.start_time <;> simp [Timer.stop, h]

/-- `Timer.stop` never returns normally: when idle it raises `TimerError`,
when running it raises the `TypeError` of the uncalled `time.perf_counter`. -/
theorem Timer.stop_result_cases (reg : Registry) (t : Timer) :
    (Timer.stop reg t).2.2 = Except.error (PyError.timerError notRunningMsg) ∨
    (Timer.stop reg t).2.2 = Except.error (PyError.typeError perfCounterTypeErrorMsg) := by
  cases h : t.start_time <;> simp [Timer.stop, h]

/-- `Timer.report` leaves the registry untouched on every path. -/
theorem Timer.report_registry_eq (reg : Registry) (t : Timer) (name : Option String) :
    (Timer.report reg t name).1 = reg := by
  cases name with
  | some n => simp [Timer.report, Timer.report_saved_timer]
  | none =>
      by_cases h : reg.isEmpty
      · have hr := Timer.stop_result_cases reg t
        rcases hr with hr | hr <;>
          simp [Timer.report, h, Timer.stop_registry_eq reg t, hr]
      · simp [Timer.report, h]

/-- `Timer.report` leaves the calling instance untouched on every path. -/
theorem Timer.report_inst_eq (reg : Registry) (t : Timer) (name : Option String) :
    (Timer.report reg t name).2.1 = t := by
  cases name with
  | some n => simp [Timer.report, Timer.report_saved_timer]
  | none =>
      by_cases h : reg.isEmpty
      · have hr := Timer.stop_result_cases reg t
        rcases hr with hr | hr <;>
          simp [Timer.report, h, Timer.stop_inst_eq reg t, hr]
      · simp [Timer.report, h]

/-- `setdefault` preserves pointwise non-negativity when the default is
non-negative. -/
theorem Registry.setdefault_nonneg (reg : Registry) (k : String) (v : ℚ)
    (hv : 0 ≤ v) (hreg : ∀ p ∈ reg, 0 ≤ p.2) :
    ∀ p ∈ reg.setdefault k v, 0 ≤ p.2 := by
  intro p hp
  unfold Registry.setdefault at hp
  by_cases h : (reg.lookup k).isSome
  · exact hreg p (by simpa [h] using hp)
  · rw [if_neg h] at hp
    rcases List.mem_append.mp hp with hp | hp
    · exact hreg p hp
    · have hpv : p = (k, v) := by simpa using hp
      simpa [hpv] using hv
/-- `Timer.init` preserves pointwise non-negativity of the registry. -/
theorem Timer.init_registry_nonneg (reg : Registry) (name : Option String)
    (text : String) (lg : Bool) (hreg : ∀ p ∈ reg, 0 ≤ p.2) :
    ∀ p ∈ (Timer.init reg name text lg).1, 0 ≤ p.2 := by
  cases name with
  | none => simpa [Timer.init] using hreg
  | some n =>
      by_cases h : n = ""
      · simpa [Timer.init, h] using hreg
      · simpa [Timer.init, h] using
          Registry.setdefault_nonneg reg n 0 le_rfl hreg

/-- One step of the process semantics preserves pointwise non-negativity
of the registry. -/
theorem PyState.step_registry_nonneg (s : PyState) (op : Op)
    (hreg : ∀ p ∈ s.registry, 0 ≤ p.2) :
    ∀ p ∈ (s.step op).registry, 0 ≤ p.2 := by
  cases op with
  | construct name text lg =>
      simpa [PyState.step] using Timer.init_registry_nonneg s.registry name text lg hreg
  | start i now =>
      cases h : s.insts[i]? <;> simpa [PyState.step, h] using hreg
  | stop i =>
      cases h : s.insts[i]? with
      | none => simpa [PyState.step, h] using hreg
      | some t => simpa [PyState.step, h, Timer.stop_registry_eq] using hreg
  | report i name =>
      cases h : s.insts[i]? with
      | none => simpa [PyState.step, h] using hreg
      | some t => simpa [PyState.step, h, Timer.report_registry_eq] using hreg

/-- Folding the step function preserves pointwise non-negativity. -/
theorem foldl_step_registry_nonneg (ops : List Op) (s : PyState)
    (hreg : ∀ p ∈ s.registry, 0 ≤ p.2) :
    ∀ p ∈ (ops.foldl PyState.step s).registry, 0 ≤ p.2 := by
  induction ops generalizing s with
  | nil => simpa using hreg
  | cons op rest ih =>
      simpa using ih (s.step op) (PyState.step_registry_nonneg s op hreg)

/-! Claim theorems. -/

/-- Claim C1: `start()` while Running raises the `TimerError` with the
"Timer is running" message (the `AlreadyRunning` error of the spec) and
`stop()` while Idle raises the `TimerError` with the "Timer is not
running" message (the `NotRunning` error); in particular, after a
successful `start()` a second `start()` fails with `AlreadyRunning`, and
from Idle two consecutive `stop()` calls both fail with `NotRunning`. -/
theorem timer_misuse_errors (reg : Registry) (t : Timer) :
    (t.start_time ≠ none →
      ∀ now, (t.start now).2 = Except.error (PyError.timerError runningMsg)) ∧
    (t.start_time = none →
      (Timer.stop reg t).2.2 = Except.error (PyError.timerError notRunningMsg)) ∧
    (t.start_time = none → ∀ now now',
      ((t.start now).1.start now').2 = Except.error (PyError.timerError runningMsg)) ∧
    (t.start_time = none → ∀ reg',
      (Timer.stop reg' (Timer.stop reg t).2.1).2.2 =
        Except.error (PyError.timerError notRunningMsg)) := by
  refine ⟨?_, ?_, ?_, ?_⟩
  · intro hne now
    cases h : t.start_time with
    | none => exact absurd h hne
    | some s => simp [Timer.start, h]
  · intro h
    simp [Timer.stop, h]
  · intro h now now'
    simp [Timer.start, h]
  · intro h reg'
    simp [Timer.stop, h]

/-- Witness for C1 at concrete inputs: a fresh idle timer started at clock
reading 0 rejects a second start, and an idle timer rejects stop twice. -/
theorem timer_misuse_errors_witness :
    ((((Timer.init [] none defaultText false).2.start 0).1.start 1).2 =
      Except.error (PyError.timerError runningMsg)) ∧
    ((Timer.stop [] (Timer.init [] none defaultText false).2).2.2 =
      Except.error (PyError.timerError notRunningMsg)) :=
  ⟨(timer_misuse_errors [] (Timer.init [] none defaultText false).2).2.2.1 rfl 0 1,
   (timer_misuse_errors [] (Timer.init [] none defaultText false).2).2.1 rfl⟩

/-- Claim C2 (failing behaviour): on a Running timer, `stop()` does not
return the elapsed duration and does not make the timer Idle; it raises
the `TypeError` of `time.perf_counter - self._start_time` (the call
parentheses are missing), leaving `_start_time` still set — the method
also contains no `self._start_time = None` reset statement at all. -/
theorem stop_raises_type_error (reg : Registry) (t : Timer) (s : ℚ)
    (h : t.start_time = some s) :
    (Timer.stop reg t).2.2 = Except.error (PyError.typeError perfCounterTypeErrorMsg) ∧
    (Timer.stop reg t).2.1.start_time = some s := by
  constructor <;> simp [Timer.stop, h]

/-- Witness for C2: a timer started at clock reading 0. -/
theorem stop_raises_type_error_witness :
    (Timer.stop [] (((Timer.init [] none defaultText false).2.start 0).1)).2.2 =
      Except.error (PyError.typeError perfCounterTypeErrorMsg) ∧
    (Timer.stop [] (((Timer.init [] none defaultText false).2.start 0).1)).2.1.start_time =
      some 0 :=
  stop_raises_type_error [] (((Timer.init [] none defaultText false).2.start 0).1) 0 rfl

/-- Claim C3 (failing behaviour): a `start(); stop()` cycle never adds
anything to the registry — whatever the initial state, after `start` the
`stop` call leaves the registry exactly as it was and raises the
`perf_counter` `TypeError` instead of returning a duration, so no number
of cycles can accumulate a sum of elapsed durations. -/
theorem cycle_accumulates_nothing (reg : Registry) (t : Timer) (now : ℚ) :
    (Timer.stop reg (t.start now).1).1 = reg ∧
    (Timer.stop reg (t.start now).1).2.2 =
      Except.error (PyError.typeError perfCounterTypeErrorMsg) := by
  cases h : t.start_time <;> simp [Timer.start, Timer.stop, h]

/-- Claim C5 (failing behaviour): `report_saved_timer` raises
`UnboundLocalError` on every input — also through `report(name)` — instead
of returning the formatted line or raising the `UnknownTimer` error. -/
theorem report_saved_timer_unbound_local (t : Timer) (name : String) :
    t.report_saved_timer name =
      (t, Except.error (PyError.unboundLocalError "_report")) ∧
    ∀ reg : Registry, (Timer.report reg t (some name)).2.2 =
      Except.error (PyError.unboundLocalError "_report") := by
  exact ⟨rfl, fun reg => rfl⟩

/-- Claim C4: with `name` omitted, `report` on a non-empty registry returns
one `"<key>: <value>\n"` line per entry in iteration order and leaves the
registry and the timer untouched (no stop happens); on an empty registry it
falls back to `stop()`, raising `NotRunning` when the timer is Idle — but
when the timer is Running the fallback raises the `perf_counter`
`TypeError` from inside `stop()` instead of returning a result. -/
theorem report_dispatch_behavior (reg : Registry) (t : Timer) :
    (reg ≠ [] → Timer.report reg t none = (reg, t, Except.ok (reportAllLines reg))) ∧
    (reg = [] → t.start_time = none →
      (Timer.report reg t none).2.2 = Except.error (PyError.timerError notRunningMsg)) ∧
    (reg = [] → ∀ s, t.start_time = some s →
      (Timer.report reg t none).2.2 =
        Except.error (PyError.typeError perfCounterTypeErrorMsg)) := by
  refine ⟨?_, ?_, ?_⟩
  · intro hne
    cases reg with
    | nil => exact absurd rfl hne
    | cons p rest => simp [Timer.report]
  · intro he h
    subst he
    simp [Timer.report, Timer.stop, h]
  · intro he s h
    subst he
    simp [Timer.report, Timer.stop, h]

/-- Witness for C4: registry `[("x", 0)]` is reported as `"x: 0\n"` without
stopping; on the empty registry an idle timer raises the not-running
`TimerError` and a running timer raises the `perf_counter` `TypeError`. -/
theorem report_dispatch_behavior_witness :
    Timer.report [("x", 0)] (Timer.init [("x", 0)] none defaultText false).2 none =
      ([("x", 0)], (Timer.init [("x", 0)] none defaultText false).2, Except.ok "x: 0\n") ∧
    (Timer.report [] (Timer.init [] none defaultText false).2 none).2.2 =
      Except.error (PyError.timerError notRunningMsg) ∧
    (Timer.report [] ((Timer.init [] none defaultText false).2.start 0).1 none).2.2 =
      Except.error (PyError.typeError perfCounterTypeErrorMsg) := by
  refine ⟨?_, ?_, ?_⟩
  · have h :=
      (report_dispatch_behavior [("x", 0)]
        (Timer.init [("x", 0)] none defaultText false).2).1 (by simp)
    rw [h]
    rfl
  · exact (report_dispatch_behavior [] (Timer.init [] none defaultText false).2).2.1 rfl rfl
  · exact (report_dispatch_behavior []
      ((Timer.init [] none defaultText false).2.start 0).1).2.2 rfl 0 rfl

/-- Claim C6 (failing behaviour): for an idle timer used as a context
manager around a body that raises `e`, `__exit__` does call `stop()`, but
`stop()` raises the `perf_counter` `TypeError`, which supersedes the
original exception `e`, and the timer is left Running
(`_start_time = some now`), not Idle. -/
theorem with_block_supersedes_error (reg : Registry) (t : Timer) (now : ℚ)
    (e : PyError) (h : t.start_time = none) :
    (withTimer reg t now ((Except.error e : Except PyError Unit))).2.2 =
      Except.error (PyError.typeError perfCounterTypeErrorMsg) ∧
    (withTimer reg t now ((Except.error e : Except PyError Unit))).2.1.start_time =
      some now := by
  constructor <;> simp [withTimer, Timer.start, Timer.stop, h]

/-- Witness for C6: a fresh timer around a body raising a `TimerError`
named "boom". -/
theorem with_block_supersedes_error_witness :
    (withTimer [] (Timer.init [] none defaultText false).2 0
        ((Except.error (PyError.timerError "boom") : Except PyError Unit))).2.2 =
      Except.error (PyError.typeError perfCounterTypeErrorMsg) ∧
    (withTimer [] (Timer.init [] none defaultText false).2 0
        ((Except.error (PyError.timerError "boom") : Except PyError Unit))).2.1.start_time =
      some 0 :=
  with_block_supersedes_error [] (Timer.init [] none defaultText false).2 0
    (PyError.timerError "boom") rfl

/-- Claim C7 (failing behaviour): one invocation of a callable wrapped by
an idle timer never returns the result of the callable: the context-
manager exit raises the `perf_counter` `TypeError` on every call,
whatever `f` and its argument are. -/
theorem wrapped_call_never_returns (reg : Registry) (t : Timer) (now : ℚ)
    {α β : Type} (f : α → Except PyError β) (x : α) (h : t.start_time = none) :
    (wrapper_timer reg t now f x).2.2 =
      Except.error (PyError.typeError perfCounterTypeErrorMsg) := by
  simp [wrapper_timer, withTimer, Timer.start, Timer.stop, h]

/-- Witness for C7: wrapping the successor function and calling it on 5
raises instead of returning 6. -/
theorem wrapped_call_never_returns_witness :
    (wrapper_timer [] (Timer.init [] none defaultText false).2 0
        (fun n : ℕ => (Except.ok (n + 1) : Except PyError ℕ)) 5).2.2 =
      Except.error (PyError.typeError perfCounterTypeErrorMsg) :=
  wrapped_call_never_returns [] (Timer.init [] none defaultText false).2 0
    (fun n : ℕ => (Except.ok (n + 1) : Except PyError ℕ)) 5 rfl

/-- Counterexample to claim C8: constructing a `Timer` named "x" on an
empty registry creates the zero-valued entry immediately, before any
`stop()` — registration is not deferred. -/
theorem eager_registration_counterexample :
    (Timer.init [] (some "x") defaultText false).1 = [("x", 0)] := rfl

/-- Claim C8 as amended: registration is eager, not deferred —
`Timer.__init__` with a truthy name runs `setdefault(name, 0)` on the
registry at construction time, creating the zero-valued entry when absent
and leaving an existing entry untouched, while the fresh timer itself is
still Idle (no `stop()` has happened). -/
theorem eager_registration (reg : Registry) (n : String) (text : String)
    (lg : Bool) (hn : n ≠ "") :
    (reg.lookup n = none →
      (Timer.init reg (some n) text lg).1 = reg ++ [(n, 0)]) ∧
    (∀ v, reg.lookup n = some v → (Timer.init reg (some n) text lg).1 = reg) ∧
    (Timer.init reg (some n) text lg).2.start_time = none := by
  refine ⟨?_, ?_, rfl⟩
  · intro h
    simp [Timer.init, hn, Registry.setdefault, h]
  · intro v h
    simp [Timer.init, hn, Registry.setdefault, h]

/-- Witness for C8 (amended): name "x" on the empty registry. -/
theorem eager_registration_witness :
    (([] : Registry).lookup "x" = none) ∧
    (Timer.init [] (some "x") defaultText false).1 = ([] : Registry) ++ [("x", 0)] :=
  ⟨rfl, (eager_registration [] "x" defaultText false (by decide)).1 rfl⟩

/-- Claim C9: along every sequence of operations (constructions, starts,
stops, reports) from the initial process state, every accumulated value in
the shared registry is non-negative: entries are created at zero by
`setdefault` and no operation ever decreases a value (`stop` raises before
its accumulation line, so it never writes at all). -/
theorem registry_values_nonneg (ops : List Op) :
    ∀ p ∈ (runOps ops).registry, 0 ≤ p.2 := by
  have hinit : ∀ p ∈ initState.registry, 0 ≤ p.2 := by
    intro p hp
    simp [initState] at hp
  simpa [runOps] using foldl_step_registry_nonneg ops initState hinit

/-- Witness for C9: after constructing a timer named "x", the registry
holds the pair `("x", 0)` and its value is non-negative. -/
theorem registry_values_nonneg_witness :
    ("x", (0 : ℚ)) ∈ (runOps [Op.construct (some "x") defaultText false]).registry ∧
    (0 : ℚ) ≤ ("x", (0 : ℚ)).2 :=
  ⟨by decide,
   registry_values_nonneg [Op.construct (some "x") defaultText false]
     ("x", (0 : ℚ)) (by decide)⟩

/-- Claim C10: reporting is read-only — `report(name)` for any name, and
`report()` with no name on a non-empty registry, leave both the registry
and the calling timer (in particular its `_start_time` flag) exactly as
they were. -/
theorem report_read_only (reg : Registry) (t : Timer) :
    (∀ n, (Timer.report reg t (some n)).1 = reg ∧
      (Timer.report reg t (some n)).2.1 = t) ∧
    (reg ≠ [] →
      (Timer.report reg t none).1 = reg ∧
      (Timer.report reg t none).2.1 = t ∧
      (Timer.report reg t none).2.1.start_time = t.start_time) := by
  refine ⟨fun n => ⟨Timer.report_registry_eq reg t (some n),
    Timer.report_inst_eq reg t (some n)⟩, fun hne => ?_⟩
  exact ⟨Timer.report_registry_eq reg t none, Timer.report_inst_eq reg t none,
    by rw [Timer.report_inst_eq reg t none]⟩

/-- Witness for C10: reporting the name "x", and reporting all entries of
the non-empty registry `[("x", 0)]`, from a running timer. -/
theorem report_read_only_witness :
    ((Timer.report [("x", 0)] ((Timer.init [("x", 0)] none defaultText false).2.start 0).1
        (some "x")).1 = [("x", 0)]) ∧
    ((Timer.report [("x", 0)] ((Timer.init [("x", 0)] none defaultText false).2.start 0).1
        none).2.1.start_time =
      ((Timer.init [("x", 0)] none defaultText false).2.start 0).1.start_time) :=
  ⟨((report_read_only [("x", 0)]
      ((Timer.init [("x", 0)] none defaultText false).2.start 0).1).1 "x").1,
   ((report_read_only [("x", 0)]
      ((Timer.init [("x", 0)] none defaultText false).2.start 0).1).2 (by simp)).2.2⟩
